import Mathlib

/-!
Verification development for `brainrender/atlases/aba.py` (class `ABA`).

The file shallowly embeds the argument-normalization, coloring, coordinate
lookup and hemisphere utilities of the `ABA` atlas adapter.  Coordinates are
modelled as rationals, Python exceptions as an explicit error type
(`Except PyErr`), numpy integer indexing with Python negative-index
semantics, and `np.round` as round-half-to-even.  External collaborators
(the Allen SDK structure tree, mesh loaders, color utilities) are passed in
as explicit parameters or carried in constructors, so every definition is
executable.
-/

namespace ABA

/-- A Python-level exception, as raised by the code under study. -/
inductive PyErr where
  | valueError (msg : String)
  | attributeError
  | nameError
  | indexError
  | notImplementedError
deriving DecidableEq

/-- Rational 3D point (a Python list of three floats, indexed `[0]/[1]/[2]`). -/
structure Point3 where
  x : ℚ
  y : ℚ
  z : ℚ
deriving DecidableEq

/-- `ABA.resolution = 25` (class attribute, units per voxel). -/
def resolution : ℚ := 25

/-- `ABA._root_midpoint = [np.mean([-17, 13193]), np.mean([134, 7564]), np.mean([486, 10891])]`. -/
def root_midpoint : Point3 :=
  ⟨((-17) + 13193) / 2, (134 + 7564) / 2, (486 + 10891) / 2⟩

/-- `ABA.get_hemisphere_from_point`: `'left'` when `point[2] < self._root_midpoint[2]`,
else `'right'`. -/
def get_hemisphere_from_point (point : Point3) : String :=
  if point.z < root_midpoint.z then "left" else "right"

/-- `ABA.get_hemispere_from_point`: `'right'` when `p0[2] > self._root_midpoint[2]`,
else `'left'`. -/
def get_hemispere_from_point (p0 : Point3) : String :=
  if root_midpoint.z < p0.z then "right" else "left"

/-- `ABA.mirror_point_across_hemispheres`:
`delta = point[2] - mid; point[2] = mid - delta` (other coordinates untouched). -/
def mirror_point_across_hemispheres (point : Point3) : Point3 :=
  let delta := point.z - root_midpoint.z
  ⟨point.x, point.y, root_midpoint.z - delta⟩

/-! ### Coordinate-to-region lookup -/

/-- `np.round` on a scalar: round to the nearest integer, ties to even
(numpy banker rounding); the subsequent `.astype(int)` is the identity on
an already-integral value. -/
def npRound (q : ℚ) : ℤ :=
  let f := ⌊q⌋
  let r := q - f
  if r < 1/2 then f
  else if 1/2 < r then f + 1
  else if f % 2 = 0 then f else f + 1

/-- The voxel index computed by `get_structure_from_coordinates`:
`np.round(np.array(p0) / self.resolution).astype(int)`, componentwise. -/
def point_to_voxel (p : Point3) : ℤ × ℤ × ℤ :=
  (npRound (p.x / resolution), npRound (p.y / resolution), npRound (p.z / resolution))

/-- Python/numpy integer indexing into one axis of extent `d`:
indices `0 ≤ i < d` address directly, `-d ≤ i < 0` wrap around to `d + i`,
anything else raises `IndexError` (here: `none`). -/
def npIndex (d : Nat) (i : ℤ) : Option Nat :=
  if 0 ≤ i ∧ i < (d : ℤ) then some i.toNat
  else if -(d : ℤ) ≤ i ∧ i < 0 then some (i + d).toNat
  else none

/-- The annotation volume: a 3D voxel grid holding a structure id per voxel
(`self.annotated_volume`). -/
structure AnnVol where
  d0 : Nat
  d1 : Nat
  d2 : Nat
  data : Nat → Nat → Nat → Nat

/-- A structure record as returned by the structure tree
(`structure_tree.get_structures_by_id(...)[0]`); only the field the adapter
reads is kept. -/
structure AnnStructure where
  acronym : String
deriving DecidableEq

/-- Result of `get_structure_from_coordinates`: either just the acronym
(`just_acronym=True`) or the full structure record. -/
inductive LookupRet where
  | acr (a : String)
  | struct (s : AnnStructure)
deriving DecidableEq

/-- `ABA.get_structure_from_coordinates(p0, just_acronym)`:
`voxel = np.round(np.array(p0)/resolution).astype(int)`, then
`annotated_volume[voxel[0], voxel[1], voxel[2]]` inside a bare
`try/except` returning `None` on failure, then the structure-tree lookup
(`tree`: external collaborator, `none` models the SDK returning `None`). -/
def get_structure_from_coordinates (tree : Nat → Option AnnStructure) (vol : AnnVol)
    (p0 : Point3) (just_acronym : Bool) : Option LookupRet :=
  match npIndex vol.d0 (point_to_voxel p0).1, npIndex vol.d1 (point_to_voxel p0).2.1,
      npIndex vol.d2 (point_to_voxel p0).2.2 with
  | some i, some j, some k =>
    let structure_id := vol.data i j k
    match tree structure_id with
    | none => none
    | some s => if just_acronym then some (.acr s.acronym) else some (.struct s)
  | _, _, _ => none

/-! ### Hemisphere and mirroring claims -/

/-- Auxiliary: `npRound` sends any rational strictly within `1/2` of an
integer to that integer. -/
theorem npRound_eq_of_close (q : ℚ) (n : ℤ) (h : |q - (n : ℚ)| < 1/2) : npRound q = n := by
  rw [abs_lt] at h
  obtain ⟨hlo, hhi⟩ := h
  have hfl : (⌊q⌋ : ℚ) ≤ q := Int.floor_le q
  have hfl2 : q < ⌊q⌋ + 1 := Int.lt_floor_add_one q
  have hlt : n < ⌊q⌋ + 2 := by exact_mod_cast (show (n : ℚ) < (⌊q⌋ : ℚ) + 2 by linarith)
  have hgt : ⌊q⌋ - 1 < n := by exact_mod_cast (show (⌊q⌋ : ℚ) - 1 < (n : ℚ) by linarith)
  rcases (by omega : n = ⌊q⌋ ∨ n = ⌊q⌋ + 1) with hn | hn
  · have hc : (n : ℚ) = (⌊q⌋ : ℚ) := by exact_mod_cast hn
    have hcond : q - (⌊q⌋ : ℚ) < 1/2 := by linarith
    simp only [npRound]
    rw [if_pos hcond, hn]
  · have hc : (n : ℚ) = (⌊q⌋ : ℚ) + 1 := by rw [hn]; push_cast; ring
    have hcond : 1/2 < q - (⌊q⌋ : ℚ) := by linarith
    simp only [npRound]
    rw [if_neg (by linarith), if_pos hcond, hn]

/-- The midline coordinate used for hemisphere decisions:
`np.mean([486, 10891]) = 5688.5`. -/
theorem root_midpoint_z : root_midpoint.z = 11377/2 := by
  norm_num [root_midpoint]

/-- Points strictly below the midline classify as `left`. -/
theorem hemisphere_point_lt (p : Point3) (h : p.z < 11377/2) :
    get_hemisphere_from_point p = "left" := by
  unfold get_hemisphere_from_point
  rw [if_pos (by rw [root_midpoint_z]; exact h)]

/-- Points at or above the midline classify as `right`. -/
theorem hemisphere_point_ge (p : Point3) (h : 11377/2 ≤ p.z) :
    get_hemisphere_from_point p = "right" := by
  unfold get_hemisphere_from_point
  rw [if_neg (by rw [root_midpoint_z]; exact not_lt.mpr h)]

/-- In the second spelling, points strictly above the midline classify as
`right`. -/
theorem hemispere_point_gt (p : Point3) (h : 11377/2 < p.z) :
    get_hemispere_from_point p = "right" := by
  unfold get_hemispere_from_point
  rw [if_pos (by rw [root_midpoint_z]; exact h)]

/-- In the second spelling, points at or below the midline classify as
`left`. -/
theorem hemispere_point_le (p : Point3) (h : p.z ≤ 11377/2) :
    get_hemispere_from_point p = "left" := by
  unfold get_hemispere_from_point
  rw [if_neg (by rw [root_midpoint_z]; exact not_lt.mpr h)]

/-- C8: mirroring a point across the midline reflects the third coordinate
about the midline value, leaves the other two coordinates unchanged, and
applying `mirror_point_across_hemispheres` twice returns the original
point. -/
theorem mirror_point_reflection_involutive (p : Point3) :
    (mirror_point_across_hemispheres p).x = p.x ∧
    (mirror_point_across_hemispheres p).y = p.y ∧
    (mirror_point_across_hemispheres p).z = 2 * root_midpoint.z - p.z ∧
    mirror_point_across_hemispheres (mirror_point_across_hemispheres p) = p := by
  obtain ⟨x, y, z⟩ := p
  refine ⟨rfl, rfl, ?_, ?_⟩
  · simp only [mirror_point_across_hemispheres]
    ring
  · simp only [mirror_point_across_hemispheres, Point3.mk.injEq]
    exact ⟨by trivial, by trivial, by ring⟩

/-- C9 counterexample: the midline value is `5688.5`, not `3600`, so the
spec example fails on the code: a point with third coordinate `4200`
classifies as `left` (the claim says `right`), and mirroring `z = 3000`
yields `z = 8377` (the claim says `4200`). -/
theorem hemisphere_spec_example_false :
    get_hemisphere_from_point ⟨0, 0, 4200⟩ = "left" ∧
    get_hemisphere_from_point ⟨0, 0, 4200⟩ ≠ "right" ∧
    (mirror_point_across_hemispheres ⟨0, 0, 3000⟩).z = 8377 ∧
    (mirror_point_across_hemispheres ⟨0, 0, 3000⟩).z ≠ 4200 := by
  have h1 : get_hemisphere_from_point ⟨0, 0, 4200⟩ = "left" :=
    hemisphere_point_lt _ (by norm_num)
  have h2 : (mirror_point_across_hemispheres ⟨0, 0, 3000⟩).z = 8377 := by
    norm_num [mirror_point_across_hemispheres, root_midpoint]
  refine ⟨h1, ?_, h2, ?_⟩
  · rw [h1]; decide
  · rw [h2]; norm_num

/-- C9 amended: hemisphere classification compares the third coordinate
against the precomputed midline `root_midpoint.z = 11377/2 = 5688.5`
(left strictly below, right at-or-above); with this midline the points
with third coordinate `3000` and `4200` both classify as `left`, and
mirroring `z = 3000` gives `z = 8377`. -/
theorem hemisphere_classification (p : Point3) :
    (p.z < 11377/2 → get_hemisphere_from_point p = "left") ∧
    (11377/2 ≤ p.z → get_hemisphere_from_point p = "right") ∧
    root_midpoint.z = 11377/2 ∧
    get_hemisphere_from_point ⟨0, 0, 3000⟩ = "left" ∧
    get_hemisphere_from_point ⟨0, 0, 4200⟩ = "left" ∧
    (mirror_point_across_hemispheres ⟨0, 0, 3000⟩).z = 8377 := by
  refine ⟨hemisphere_point_lt p, hemisphere_point_ge p, root_midpoint_z,
    hemisphere_point_lt _ (by norm_num), hemisphere_point_lt _ (by norm_num), ?_⟩
  norm_num [mirror_point_across_hemispheres, root_midpoint]

/-- Witness for the C9 amended theorem at concrete points. -/
theorem hemisphere_classification_witness :
    get_hemisphere_from_point ⟨0, 0, 3000⟩ = "left" ∧
    get_hemisphere_from_point ⟨0, 0, 6000⟩ = "right" :=
  ⟨(hemisphere_classification ⟨0, 0, 3000⟩).1 (by norm_num),
   (hemisphere_classification ⟨0, 0, 6000⟩).2.1 (by norm_num)⟩

/-- C10 counterexample: on a point exactly on the midline the two
classification operations disagree: `get_hemisphere_from_point` returns
`right` while `get_hemispere_from_point` returns `left`. -/
theorem hemisphere_variants_disagree_on_midline :
    get_hemisphere_from_point ⟨0, 0, 11377/2⟩ = "right" ∧
    get_hemispere_from_point ⟨0, 0, 11377/2⟩ = "left" ∧
    get_hemisphere_from_point ⟨0, 0, 11377/2⟩ ≠
      get_hemispere_from_point ⟨0, 0, 11377/2⟩ := by
  have h1 : get_hemisphere_from_point ⟨0, 0, 11377/2⟩ = "right" :=
    hemisphere_point_ge _ (by norm_num)
  have h2 : get_hemispere_from_point ⟨0, 0, 11377/2⟩ = "left" :=
    hemispere_point_le _ (by norm_num)
  refine ⟨h1, h2, ?_⟩
  rw [h1, h2]; decide

/-- C10 amended: the two hemisphere-classification operations agree for
every point strictly below (both `left`) or strictly above (both `right`)
the midline, but on the midline itself `get_hemisphere_from_point`
returns `right` while `get_hemispere_from_point` returns `left`. -/
theorem hemisphere_variants_agree_off_midline (p : Point3) :
    (p.z < root_midpoint.z →
      get_hemisphere_from_point p = "left" ∧ get_hemispere_from_point p = "left") ∧
    (root_midpoint.z < p.z →
      get_hemisphere_from_point p = "right" ∧ get_hemispere_from_point p = "right") ∧
    (p.z = root_midpoint.z →
      get_hemisphere_from_point p = "right" ∧ get_hemispere_from_point p = "left") := by
  rw [root_midpoint_z]
  refine ⟨fun h => ⟨hemisphere_point_lt p h, hemispere_point_le p (le_of_lt h)⟩,
    fun h => ⟨hemisphere_point_ge p (le_of_lt h), hemispere_point_gt p h⟩,
    fun h => ⟨hemisphere_point_ge p (le_of_eq h.symm), hemispere_point_le p (le_of_eq h)⟩⟩

/-- Witness for the C10 amended theorem at concrete points. -/
theorem hemisphere_variants_agree_witness :
    (get_hemisphere_from_point ⟨0, 0, 100⟩ = "left" ∧
      get_hemispere_from_point ⟨0, 0, 100⟩ = "left") ∧
    (get_hemisphere_from_point ⟨0, 0, 9000⟩ = "right" ∧
      get_hemispere_from_point ⟨0, 0, 9000⟩ = "right") :=
  ⟨(hemisphere_variants_agree_off_midline ⟨0, 0, 100⟩).1
      (by rw [root_midpoint_z]; norm_num),
   (hemisphere_variants_agree_off_midline ⟨0, 0, 9000⟩).2.1
      (by rw [root_midpoint_z]; norm_num)⟩

/-! ### Coordinate-lookup claims -/

/-- A concrete 2x2x2 annotation volume in which every voxel holds
structure id 7. -/
def demoVol : AnnVol := ⟨2, 2, 2, fun _ _ _ => 7⟩

/-- A concrete structure tree mapping id 7 to an acronym. -/
def demoTree : Nat → Option AnnStructure :=
  fun sid => if sid = 7 then some ⟨"VISp"⟩ else none

/-- C3 counterexample: a point with a negative coordinate whose voxel index
is `-1` does NOT give a null result: numpy negative indexing wraps around
(index `-1` addresses the last voxel along the axis) and a structure is
returned. -/
theorem negative_index_returns_structure :
    get_structure_from_coordinates demoTree demoVol ⟨-25, 0, 0⟩ true = some (.acr "VISp") ∧
    get_structure_from_coordinates demoTree demoVol ⟨-25, 0, 0⟩ true ≠ none := by
  have hx : npRound ((-25 : ℚ) / resolution) = -1 :=
    npRound_eq_of_close _ _ (by norm_num [resolution])
  have hy : npRound ((0 : ℚ) / resolution) = 0 :=
    npRound_eq_of_close _ _ (by norm_num [resolution])
  have h1 : point_to_voxel ⟨-25, 0, 0⟩ = (-1, 0, 0) := by
    show (npRound ((-25 : ℚ) / resolution), npRound ((0 : ℚ) / resolution),
      npRound ((0 : ℚ) / resolution)) = (-1, 0, 0)
    rw [hx, hy]
  have h2 : get_structure_from_coordinates demoTree demoVol ⟨-25, 0, 0⟩ true
      = some (.acr "VISp") := by
    unfold get_structure_from_coordinates
    rw [h1]
    decide
  exact ⟨h2, by rw [h2]; decide⟩

/-- Helper: an index at or beyond the axis extent, or below the negative
extent, raises `IndexError` in numpy (modelled as `none`). -/
theorem npIndex_eq_none (d : Nat) (i : ℤ) (h : (d : ℤ) ≤ i ∨ i < -(d : ℤ)) :
    npIndex d i = none := by
  unfold npIndex
  rcases h with h | h
  · rw [if_neg (by omega), if_neg (by omega)]
  · rw [if_neg (by omega), if_neg (by omega)]

/-- C3 amended: the voxel index is `np.round(point / 25)` componentwise, and
the lookup returns a null result whenever some component of the voxel index
is at or beyond the axis extent or strictly below its negation (numpy raises
`IndexError` there and the bare `except` returns `None`); negative indices
of magnitude at most the extent instead wrap around per Python semantics and
can return a structure. -/
theorem lookup_out_of_numpy_bounds_is_none (tree : Nat → Option AnnStructure)
    (vol : AnnVol) (p0 : Point3) (ja : Bool)
    (h : ((vol.d0 : ℤ) ≤ (point_to_voxel p0).1 ∨ (point_to_voxel p0).1 < -(vol.d0 : ℤ)) ∨
         ((vol.d1 : ℤ) ≤ (point_to_voxel p0).2.1 ∨ (point_to_voxel p0).2.1 < -(vol.d1 : ℤ)) ∨
         ((vol.d2 : ℤ) ≤ (point_to_voxel p0).2.2 ∨ (point_to_voxel p0).2.2 < -(vol.d2 : ℤ))) :
    get_structure_from_coordinates tree vol p0 ja = none := by
  unfold get_structure_from_coordinates
  rcases h with h | h | h
  · rw [npIndex_eq_none _ _ h]
  · rw [npIndex_eq_none _ _ h]
    rcases npIndex vol.d0 (point_to_voxel p0).1 with _ | i <;> rfl
  · rw [npIndex_eq_none _ _ h]
    rcases npIndex vol.d0 (point_to_voxel p0).1 with _ | i <;>
      rcases npIndex vol.d1 (point_to_voxel p0).2.1 with _ | j <;> rfl

/-- Witness for the C3 amended theorem: a far-out point on the demo volume
yields a null lookup. -/
theorem lookup_out_of_numpy_bounds_witness :
    get_structure_from_coordinates demoTree demoVol ⟨1000, 0, 0⟩ true = none := by
  have hx : npRound ((1000 : ℚ) / resolution) = 40 :=
    npRound_eq_of_close _ _ (by norm_num [resolution])
  have h1 : point_to_voxel ⟨1000, 0, 0⟩ = (40, 0, 0) := by
    show (npRound ((1000 : ℚ) / resolution), npRound ((0 : ℚ) / resolution),
      npRound ((0 : ℚ) / resolution)) = (40, 0, 0)
    rw [hx, npRound_eq_of_close ((0 : ℚ) / resolution) 0 (by norm_num [resolution])]
  apply lookup_out_of_numpy_bounds_is_none
  rw [h1]
  left; left; decide

/-- C4 counterexample: the point-to-voxel mapping is not
`floor(point / resolution)`: at coordinate `40` the code computes
`round(40/25) = 2` while `floor(40/25) = 1`. -/
theorem point_to_voxel_not_floor :
    point_to_voxel ⟨40, 0, 0⟩ = (2, 0, 0) ∧
    (⌊(40 : ℚ) / resolution⌋, ⌊(0 : ℚ) / resolution⌋, ⌊(0 : ℚ) / resolution⌋)
      = ((1 : ℤ), (0 : ℤ), (0 : ℤ)) ∧
    point_to_voxel ⟨40, 0, 0⟩ ≠
      (⌊(40 : ℚ) / resolution⌋, ⌊(0 : ℚ) / resolution⌋, ⌊(0 : ℚ) / resolution⌋) := by
  have h2 : point_to_voxel ⟨40, 0, 0⟩ = (2, 0, 0) := by
    show (npRound ((40 : ℚ) / resolution), npRound ((0 : ℚ) / resolution),
      npRound ((0 : ℚ) / resolution)) = (2, 0, 0)
    rw [npRound_eq_of_close ((40 : ℚ) / resolution) 2 (by rw [abs_lt]; norm_num [resolution]),
      npRound_eq_of_close ((0 : ℚ) / resolution) 0 (by norm_num [resolution])]
  have hfa : ⌊(40 : ℚ) / resolution⌋ = 1 := by
    rw [Int.floor_eq_iff]
    norm_num [resolution]
  have hfb : ⌊(0 : ℚ) / resolution⌋ = 0 := by
    rw [Int.floor_eq_iff]
    norm_num [resolution]
  have hf : (⌊(40 : ℚ) / resolution⌋, ⌊(0 : ℚ) / resolution⌋, ⌊(0 : ℚ) / resolution⌋)
      = ((1 : ℤ), (0 : ℤ), (0 : ℤ)) := by
    rw [hfa, hfb]
  refine ⟨h2, hf, ?_⟩
  rw [h2, hf]
  decide

/-- Helper: dividing by the resolution and rounding sends any coordinate
strictly within half a voxel of a voxel center to that voxel. -/
theorem npRound_div_res (a : ℚ) (n : ℤ) (h : |a - resolution * n| < resolution / 2) :
    npRound (a / resolution) = n := by
  apply npRound_eq_of_close
  have hres : (0 : ℚ) < resolution := by norm_num [resolution]
  have heq : a / resolution - n = (a - resolution * n) / resolution := by
    field_simp
  rw [heq, abs_div, abs_of_pos hres, div_lt_iff₀ hres]
  calc |a - resolution * n| < resolution / 2 := h
    _ = 1/2 * resolution := by ring

/-- C4 amended: the point-to-voxel mapping is round-to-nearest of
`point / resolution` (ties to even), not floor: whenever each coordinate is
strictly within half a voxel (12.5 units) of the voxel center
`resolution * n`, the mapping returns `n` for that component. -/
theorem point_to_voxel_round_nearest (p : Point3) (nx ny nz : ℤ)
    (hx : |p.x - resolution * nx| < resolution / 2)
    (hy : |p.y - resolution * ny| < resolution / 2)
    (hz : |p.z - resolution * nz| < resolution / 2) :
    point_to_voxel p = (nx, ny, nz) := by
  unfold point_to_voxel
  rw [npRound_div_res p.x nx hx, npRound_div_res p.y ny hy, npRound_div_res p.z nz hz]

/-- Witness for the C4 amended theorem: coordinate 40 is within 12.5 of the
voxel center 50, so it maps to voxel 2 (where floor would give 1). -/
theorem point_to_voxel_round_nearest_witness :
    point_to_voxel ⟨40, 0, 0⟩ = (2, 0, 0) :=
  point_to_voxel_round_nearest ⟨40, 0, 0⟩ 2 0 0 (by rw [abs_lt]; norm_num [resolution])
    (by norm_num [resolution]) (by norm_num [resolution])

/-! ### Neuron normalization and coloring (`ABA.get_neurons`)

The Python function accepts `neurons` in several runtime shapes and a
`color` argument in several runtime shapes; following the spec's design
note, each dynamic `isinstance` dispatch is embedded as a tagged-variant
input type, one constructor per runtime shape.  A non-list `neurons`
argument is wrapped into a singleton list by the source before the code
modelled here runs, so the embedding takes the wrapped list.  The unused
`alpha` parameter and the `neurite_radius` parameter (forwarded to the
external `morphapi` parser, whose output the `fileSwc`/`morph`
constructors carry) are omitted. -/

/-- A color value as used by the adapter: a color name string or an RGB
triple (Python tuple/list of numbers). -/
inductive Color where
  | named (s : String)
  | rgb (r g b : ℚ)
deriving DecidableEq

/-- A geometry handle (vtkplotter actor): a mesh, the `merge` of two
actors, an actor recolored with `.c(color)`, or a generated sphere/tube. -/
inductive Geom where
  | mesh (id : Nat)
  | merged (a b : Geom)
  | colored (g : Geom) (c : Color)
  | sphere (pos : Point3) (c : Color) (r : ℚ) (alpha : ℚ)
  | tube (points : List Point3) (r : ℚ) (c : Color) (alpha : ℚ) (res : Nat)
deriving DecidableEq

/-- A per-part color dictionary (`soma`/`axon`/`dendrites` keys; a missing
key is `none`). -/
structure PartsDict where
  soma : Option Color
  axon : Option Color
  dendrites : Option Color
deriving DecidableEq

/-- The `color` argument of `get_neurons`, one constructor per runtime
shape dispatched by the source: `None`; a `str` naming a colormap in
`_mapscales_cmaps`; any other single color; a per-part dict; a homogeneous
list of plain colors; a homogeneous list of per-part dicts; a list mixing
element types (of the given length); any other type. -/
inductive NeuronColorArg where
  | noColor
  | cmap (name : String)
  | single (c : Color)
  | partsDict (d : PartsDict)
  | colorList (cs : List Color)
  | dictList (ds : List PartsDict)
  | mixedList (n : Nat)
  | invalid
deriving DecidableEq

/-- Modelled from the spec: `brainrender.colors.get_random_colors`
(`brainrender/colors.py` is not under `src/`); the spec's color mode
"per-neuron random color" assigns one color per neuron. -/
def get_random_colors (n : Nat) : List Color :=
  (List.range n).map fun i => Color.named ("random" ++ toString i)

/-- Modelled from the spec: `brainrender.colors.colorMap`
(`brainrender/colors.py` is not under `src/`); the spec's color mode
"a shared colormap keyed by neuron sequence index" assigns one color per
sequence index and colormap name. -/
def colorMapAt (n : Nat) (name : String) : Color :=
  Color.named (name ++ toString n)

/-- The per-part color lists prepared by `get_neurons` (local variable
`colors`, a dict with keys `soma`, `axon`, `dendrites`). -/
structure NeuronColors where
  soma : List Color
  axon : List Color
  dendrites : List Color
deriving DecidableEq

def neuronsListLenMsg : String :=
  "When passing a list of color arguments, the list length should match the number of neurons"

def neuronsListTypeMsg : String :=
  "When passing a list of color arguments, all list elements should have the same type"

def somaKeyMsg : String :=
  "When passing a dictionary as color argument, soma should be one of the keys"

def badColorArgMsg : String :=
  "Color argument passed is not valid"

def colorsPrepMsg : String :=
  "Something went wrong while preparing colors. Not all entries have right length"

def badNeuronMsg : String :=
  "Passed neuron is not a valid input"

/-- The color-preparation pass of `get_neurons` (source lines 247-318).
`N` is the number of neurons.  Notable translations:
* `colorList`/`dictList`: the length check (line 286) runs before the
  homogeneity check (line 289) and before `isinstance(color[0], dict)`
  (line 293), which raises `IndexError` on an empty list;
* `dictList` (nonempty, correct length): the loop at line 297 iterates
  `colors` - the local template dict with keys `soma`, `axon`,
  `dendrites` - instead of the `color` argument, so its first element is
  the string `soma` and the first body statement evaluates
  `col.keys()` on a `str`, raising `AttributeError`;
* `partsDict`: `color.pop(part, color[soma])` defaults a missing part to
  the soma color. -/
def prepare_neuron_colors (N : Nat) : NeuronColorArg → Except PyErr NeuronColors
  | .noColor =>
    let cols := get_random_colors N
    .ok ⟨cols, cols, cols⟩
  | .cmap name =>
    let cols := (List.range N).map fun n => colorMapAt n name
    .ok ⟨cols, cols, cols⟩
  | .single c =>
    let cols := List.replicate N c
    .ok ⟨cols, cols, cols⟩
  | .partsDict d =>
    match d.soma with
    | none => .error (.valueError somaKeyMsg)
    | some s =>
      let dendrites_color := d.dendrites.getD s
      let axon_color := d.axon.getD s
      .ok ⟨List.replicate N s, List.replicate N axon_color, List.replicate N dendrites_color⟩
  | .colorList cs =>
    if cs.length ≠ N then .error (.valueError neuronsListLenMsg)
    else if cs.isEmpty then .error .indexError
    else .ok ⟨cs, cs, cs⟩
  | .dictList ds =>
    if ds.length ≠ N then .error (.valueError neuronsListLenMsg)
    else if ds.isEmpty then .error .indexError
    else .error .attributeError
  | .mixedList n =>
    if n ≠ N then .error (.valueError neuronsListLenMsg)
    else .error (.valueError neuronsListTypeMsg)
  | .invalid => .error (.valueError badColorArgMsg)

/-- The check at source lines 321-324: every prepared color list must have
one entry per neuron. -/
def check_prepared_colors (N : Nat) (c : NeuronColors) : Except PyErr NeuronColors :=
  if c.soma.length = N ∧ c.axon.length = N ∧ c.dendrites.length = N then .ok c
  else .error (.valueError colorsPrepMsg)

/-- A neuron passed as a dict of named parts (missing keys are `none`). -/
structure NeuronDict where
  soma : Option Geom
  axon : Option Geom
  apical_dendrites : Option Geom
  basal_dendrites : Option Geom
  dendrites : Option Geom
deriving DecidableEq

/-- The normalized per-neuron record (`neuron_actors` in the source). -/
structure NeuronRec where
  soma : Option Geom
  axon : Option Geom
  dendrites : Option Geom
deriving DecidableEq

/-- One element of the `neurons` argument, one constructor per runtime
shape dispatched by the source: an existing `.swc` file (its external
`morphapi` parse result is carried in the constructor), a path that is not
a file, an existing non-`.swc` file, a single whole-neuron actor, a dict of
named parts, a `morphapi` `Neuron` object (parse result carried), or any
other type. -/
inductive NeuronArg where
  | fileSwc (parsed : NeuronRec)
  | fileMissing (path : String)
  | fileNotSwc (path : String)
  | actor (a : Geom)
  | dict (d : NeuronDict)
  | morph (parsed : NeuronRec)
  | invalid
deriving DecidableEq

/-- The per-neuron normalization of `get_neurons` (source lines 330-370),
before the display toggles.  In the `dict` case (lines 350-363):
* only `basal_dendrites` present: it is used directly;
* only `apical_dendrites` present: it is used directly;
* both present: the source assigns the merge to `neuron_ctors`, an
  undefined name (line 361, a typo for `neuron_actors`), so Python raises
  `NameError`;
* neither present: the plain `dendrites` key is used.
The subsequent actor-type check (lines 373-376) always passes here since
every part is a `Geom`. -/
def normalize_neuron_raw : NeuronArg → Except PyErr NeuronRec
  | .fileSwc parsed => .ok parsed
  | .fileMissing _ => .error (.valueError badNeuronMsg)
  | .fileNotSwc _ => .error .notImplementedError
  | .actor a => .ok ⟨some a, none, none⟩
  | .dict d =>
    match d.apical_dendrites, d.basal_dendrites with
    | none, none => .ok ⟨d.soma, d.axon, d.dendrites⟩
    | none, some b => .ok ⟨d.soma, d.axon, some b⟩
    | some a, none => .ok ⟨d.soma, d.axon, some a⟩
    | some _, some _ => .error .nameError
  | .morph parsed => .ok parsed
  | .invalid => .error (.valueError badNeuronMsg)

/-- The display toggles applied after normalization (source lines
378-381). -/
def normalize_neuron (display_axon display_dendrites : Bool) (n : NeuronArg) :
    Except PyErr NeuronRec :=
  match normalize_neuron_raw n with
  | .error e => .error e
  | .ok r =>
    .ok ⟨r.soma, if display_axon then r.axon else none,
      if display_dendrites then r.dendrites else none⟩

/-- Applying `.c(color)` to an optional part; an out-of-range color index
would raise `IndexError` (unreachable after the length check). -/
def color_part (g : Option Geom) (cs : List Color) (n : Nat) : Except PyErr (Option Geom) :=
  match g with
  | none => .ok none
  | some a =>
    match cs.get? n with
    | none => .error .indexError
    | some c => .ok (some (.colored a c))

/-- The coloring pass for one record (source lines 385-390): axon first,
then soma - with NO `None` check, so a record without a soma raises
`AttributeError` - then dendrites. -/
def color_neuron (colors : NeuronColors) (n : Nat) (r : NeuronRec) :
    Except PyErr NeuronRec :=
  match color_part r.axon colors.axon n with
  | .error e => .error e
  | .ok ax =>
    match r.soma with
    | none => .error .attributeError
    | some s =>
      match colors.soma.get? n with
      | none => .error .indexError
      | some c =>
        match color_part r.dendrites colors.dendrites n with
        | .error e => .error e
        | .ok de => .ok ⟨some (.colored s c), ax, de⟩

/-- `for n, neuron in enumerate(_neurons_actors)` colored sequentially. -/
def color_all (colors : NeuronColors) : Nat → List NeuronRec → Except PyErr (List NeuronRec)
  | _, [] => .ok []
  | n, r :: rs =>
    match color_neuron colors n r with
    | .error e => .error e
    | .ok r2 =>
      match color_all colors (n + 1) rs with
      | .error e => .error e
      | .ok rs2 => .ok (r2 :: rs2)

/-- Sequential effectful map over a list, first failure propagates (the
translation of a Python `for` loop accumulating results). -/
def mapE (f : α → Except PyErr β) : List α → Except PyErr (List β)
  | [] => .ok []
  | a :: l =>
    match f a with
    | .error e => .error e
    | .ok b =>
      match mapE f l with
      | .error e => .error e
      | .ok bs => .ok (b :: bs)

/-- The value returned by `get_neurons` (the source returns a pair whose
second component is the constant `None`; it is dropped here): the single
record unwrapped when exactly one neuron was processed, `None` when none
were, the list otherwise. -/
inductive NeuronsRet where
  | one (r : NeuronRec)
  | many (rs : List NeuronRec)
  | noneRet
deriving DecidableEq

/-- `ABA.get_neurons` (source lines 213-398): prepare colors, check their
lengths, normalize each neuron, color each record, then shape the return
value by the number of records. -/
def get_neurons (neurons : List NeuronArg) (color : NeuronColorArg)
    (display_axon display_dendrites : Bool) : Except PyErr NeuronsRet :=
  match prepare_neuron_colors neurons.length color with
  | .error e => .error e
  | .ok colors0 =>
    match check_prepared_colors neurons.length colors0 with
    | .error e => .error e
    | .ok colors =>
      match mapE (normalize_neuron display_axon display_dendrites) neurons with
      | .error e => .error e
      | .ok recs =>
        match color_all colors 0 recs with
        | .error e => .error e
        | .ok colored =>
          match colored with
          | [r] => .ok (.one r)
          | [] => .ok .noneRet
          | rs => .ok (.many rs)

/-- C1: with only `apical_dendrites` present the normalized record's
dendrites entry is the apical part unchanged, but with both
`apical_dendrites` and `basal_dendrites` present the source assigns the
merge to the undefined name `neuron_ctors` (line 361) and raises
`NameError` instead of producing the merged dendrites entry; the error
propagates out of `get_neurons`. -/
theorem dendrites_merge_name_bug :
    normalize_neuron true true
      (.dict ⟨some (.mesh 0), none, some (.mesh 1), none, none⟩)
      = .ok ⟨some (.mesh 0), none, some (.mesh 1)⟩ ∧
    normalize_neuron true true
      (.dict ⟨some (.mesh 0), none, some (.mesh 1), some (.mesh 2), none⟩)
      = .error .nameError ∧
    get_neurons [.dict ⟨some (.mesh 0), none, some (.mesh 1), some (.mesh 2), none⟩]
      (.single (.named "red")) true true = .error .nameError :=
  ⟨rfl, rfl, rfl⟩

/-- C2: passing one per-part color dict per neuron (a list of dicts each
with a `soma` key) does not resolve colors from the n-th dict: the loop at
source line 297 iterates the local `colors` template dict instead of the
`color` argument, so the call raises `AttributeError` even on a fully
valid input. -/
theorem color_dictlist_attribute_bug :
    get_neurons [.actor (.mesh 0)] (.dictList [⟨some (.named "red"), none, none⟩])
      true true = .error .attributeError ∧
    prepare_neuron_colors 1 (.dictList [⟨some (.named "red"), none, none⟩])
      = .error .attributeError :=
  ⟨rfl, rfl⟩

/-- `mapE` preserves list length on success. -/
theorem mapE_ok_length {α β : Type} (f : α → Except PyErr β) (l : List α) (l2 : List β)
    (h : mapE f l = .ok l2) : l2.length = l.length := by
  induction l generalizing l2 with
  | nil =>
    simp only [mapE] at h
    cases h
    rfl
  | cons a l ih =>
    simp only [mapE] at h
    cases hfa : f a with
    | error e => rw [hfa] at h; cases h
    | ok b =>
      rw [hfa] at h
      cases hml : mapE f l with
      | error e => rw [hml] at h; cases h
      | ok bs =>
        rw [hml] at h
        cases h
        simp [ih bs hml]

/-- `color_all` preserves list length on success. -/
theorem color_all_ok_length (colors : NeuronColors) (n : Nat) (l : List NeuronRec)
    (l2 : List NeuronRec) (h : color_all colors n l = .ok l2) : l2.length = l.length := by
  induction l generalizing n l2 with
  | nil =>
    simp only [color_all] at h
    cases h
    rfl
  | cons r rs ih =>
    simp only [color_all] at h
    cases hc : color_neuron colors n r with
    | error e => rw [hc] at h; cases h
    | ok r2 =>
      rw [hc] at h
      cases hrest : color_all colors (n + 1) rs with
      | error e => rw [hrest] at h; cases h
      | ok rs2 =>
        rw [hrest] at h
        cases h
        simp [ih (n + 1) rs2 hrest]

/-- C6: on success `get_neurons` yields one normalized and colored record
per input neuron: the result is the single record unwrapped (not in a
list) when exactly one neuron was supplied, a null result when the input
list is empty, and a list of exactly one record per neuron otherwise. -/
theorem get_neurons_return_shape (neurons : List NeuronArg) (color : NeuronColorArg)
    (da dd : Bool) (ret : NeuronsRet)
    (h : get_neurons neurons color da dd = .ok ret) :
    (neurons = [] → ret = .noneRet) ∧
    (neurons.length = 1 → ∃ r, ret = .one r) ∧
    (2 ≤ neurons.length → ∃ rs, ret = .many rs ∧ rs.length = neurons.length) := by
  unfold get_neurons at h
  split at h
  · simp at h
  rename_i colors0 hp
  split at h
  · simp at h
  rename_i colors hch
  split at h
  · simp at h
  rename_i recs hm
  split at h
  · simp at h
  rename_i colored hca
  have hlen : colored.length = neurons.length := by
    rw [color_all_ok_length colors 0 recs colored hca]
    exact mapE_ok_length _ neurons recs hm
  split at h
  · rename_i r
    cases h
    have hn1 : neurons.length = 1 := by rw [← hlen]; rfl
    refine ⟨fun he => ?_, fun _ => ⟨r, rfl⟩, fun h2 => by omega⟩
    rw [he] at hn1
    simp at hn1
  · cases h
    have hn0 : neurons.length = 0 := by rw [← hlen]; rfl
    exact ⟨fun _ => rfl, fun h1 => by omega, fun h2 => by omega⟩
  · rename_i hne1 hne2
    cases h
    refine ⟨fun he => ?_, fun h1 => ?_, fun _ => ⟨colored, rfl, hlen⟩⟩
    · rw [he] at hlen
      simp only [List.length_nil] at hlen
      exact absurd (List.length_eq_zero.mp hlen) (by intro hc; exact hne2 hc)
    · rw [← hlen] at h1
      obtain ⟨r, hr⟩ := List.length_eq_one.mp h1
      exact absurd hr (by intro hc; exact hne1 r hc)

/-- Witness for C6 at a concrete single-neuron input: the single colored
record is returned unwrapped. -/
theorem get_neurons_return_shape_witness :
    ∃ r, NeuronsRet.one ⟨some (Geom.colored (.mesh 0) (.named "red")), none, none⟩
      = NeuronsRet.one r :=
  (get_neurons_return_shape [.actor (.mesh 0)] (.single (.named "red")) true true
    (.one ⟨some (.colored (.mesh 0) (.named "red")), none, none⟩) rfl).2.1 rfl

/-! ### Tractography rendering (`ABA.get_tractography`)

One tractography record (a dict from the connectivity API) is embedded as
a `Tract`; module-level rendering constants (`TRACT_DEFAULT_COLOR`,
`TRACTO_ALPHA`, ...) and external collaborators (`check_colors`,
`get_region_color`, `get_structure_parent`, the structure tree and
annotation volume for the optional reverse lookup) are fields of
`TractoEnv`. -/

/-- One tractography experiment record; `injection_structures` holds the
`abbreviation` field of each entry of the `injection-structures` list. -/
structure Tract where
  structure_abbrev : String
  injection_structures : List String
  injection_coordinates : Point3
  injection_volume : ℚ
  path : List Point3
deriving DecidableEq

/-- The `color_by` argument: one constructor per recognised mode plus one
for any other string. -/
inductive ColorBy where
  | manual
  | region
  | target_region
  | unknown (s : String)
deriving DecidableEq

/-- The `extract_region_from_inj_coords` argument: `False` (or an empty,
falsy list), `True`, or a non-empty allow-list. -/
inductive ExtractArg where
  | noExtract
  | extract
  | fromList (allow : List String)
deriving DecidableEq

/-- The `color` argument of `get_tractography`: `None`, a per-record list,
or a single color. -/
inductive TractColorArg where
  | noneC
  | listC (cs : List Color)
  | singleC (c : Color)
deriving DecidableEq

/-- Modelled from the spec:
`brainrender.Utils.data_manipulation.is_any_item_in_list`
(`brainrender/Utils/data_manipulation.py` is not under `src/`): whether
any item of the first list occurs in the second. -/
def is_any_item_in_list (l1 l2 : List String) : Bool :=
  l1.any fun x => l2.contains x

/-- Module constants and external collaborators used by
`get_tractography`. -/
structure TractoEnv where
  TRACT_DEFAULT_COLOR : Color
  TRACTO_ALPHA : ℚ
  TRACTO_RADIUS : ℚ
  TRACTO_RES : Nat
  INJECTION_VOLUME_SIZE : ℚ
  check_colors : Color → Bool
  region_color : String → Color
  parent_acronym : String → String
  tree : Nat → Option AnnStructure
  vol : AnnVol

/-- The remaining arguments of `get_tractography`. -/
structure TractoArgs where
  color_by : ColorBy
  others_alpha : ℚ
  VIP_regions : List String
  VIP_color : Option Color
  others_color : Color
  include_all_inj_regions : Bool
  extract_region_from_inj_coords : ExtractArg
  display_injection_volume : Bool

def tractoListLenMsg : String :=
  "If a list of colors is passed, it must have the same number of items as the number of tractography traces"

def tractoInvalidColorMsg : String :=
  "Color variable passed to tractography is invalid"

def tractoVIPColorMsg : String :=
  "Invalid VIP or other color passed"

def tractoColorByMsg : String :=
  "Unrecognised color_by argument"

/-- The `COLORS` preparation of `get_tractography` (source lines 434-472):
one color per record, depending on the coloring mode.  In `manual` mode
the length check on a color list (line 441) runs before the per-element
`check_colors` validation. -/
def tract_colors (env : TractoEnv) (args : TractoArgs) (ts : List Tract)
    (color : TractColorArg) : Except PyErr (List Color) :=
  match args.color_by with
  | .manual =>
    match color with
    | .noneC => .ok (List.replicate ts.length env.TRACT_DEFAULT_COLOR)
    | .listC cs =>
      if cs.length ≠ ts.length then .error (.valueError tractoListLenMsg)
      else if cs.all env.check_colors then .ok cs
      else .error (.valueError tractoInvalidColorMsg)
    | .singleC c =>
      if env.check_colors c then .ok (List.replicate ts.length c)
      else .error (.valueError tractoInvalidColorMsg)
  | .region => .ok (ts.map fun t => env.region_color t.structure_abbrev)
  | .target_region =>
    match args.VIP_color with
    | some vc =>
      if env.check_colors vc && env.check_colors args.others_color then
        if args.include_all_inj_regions then
          .ok (ts.map fun t =>
            if is_any_item_in_list t.injection_structures args.VIP_regions then vc
            else args.others_color)
        else
          .ok (ts.map fun t =>
            if args.VIP_regions.contains t.structure_abbrev then vc
            else args.others_color)
      else .error (.valueError tractoVIPColorMsg)
    | none =>
      .ok (ts.map fun t =>
        if args.VIP_regions.contains t.structure_abbrev then
          env.region_color t.structure_abbrev
        else args.others_color)
  | .unknown _ => .error (.valueError tractoColorByMsg)

/-- The injection structures considered for one record (source lines
482-485): all of them when `include_all_inj_regions`, otherwise the parent
of the primary structure. -/
def inj_structures_of (env : TractoEnv) (args : TractoArgs) (t : Tract) : List String :=
  if args.include_all_inj_regions then t.injection_structures
  else [env.parent_acronym t.structure_abbrev]

/-- The per-record opacity (source lines 492-495): `others_alpha` for a
non-VIP record in `target_region` mode, the module constant
`TRACTO_ALPHA` otherwise. -/
def resolved_alpha (env : TractoEnv) (args : TractoArgs) (t : Tract) : ℚ :=
  if args.color_by = .target_region ∧
      is_any_item_in_list (inj_structures_of env args t) args.VIP_regions = false then
    args.others_alpha
  else env.TRACTO_ALPHA

/-- Whether the `extract_region_from_inj_coords` value is truthy in Python
(`True`, or a non-empty list). -/
def extract_truthy : ExtractArg → Bool
  | .noExtract => false
  | .extract => true
  | .fromList allow => !allow.isEmpty

/-- The geometry appended for one surviving record (source lines 517-522):
an optional injection-site sphere (radius proportional to the injection
volume, opacity the module constant) and the path tube (opacity the
resolved per-record opacity). -/
def tract_geoms (env : TractoEnv) (args : TractoArgs) (t : Tract) (color : Color)
    (alpha : ℚ) : List Geom :=
  (if args.display_injection_volume then
    [Geom.sphere t.injection_coordinates color
      (env.INJECTION_VOLUME_SIZE * t.injection_volume) env.TRACTO_ALPHA]
  else []) ++
  [Geom.tube t.path env.TRACTO_RADIUS color alpha env.TRACTO_RES]

/-- The loop body of `get_tractography` for one record (source lines
480-522): a record whose resolved opacity is zero is skipped entirely;
otherwise the optional reverse coordinate lookup may skip the record
(lookup failed, or its re-derived parent structure is not in a non-empty
allow-list), and the surviving record contributes its geometry.  The
`LookupRet.acr` case is unreachable because the lookup is called with
`just_acronym=False`. -/
def tract_record_actors (env : TractoEnv) (args : TractoArgs) (t : Tract)
    (color : Color) : List Geom :=
  let alpha := resolved_alpha env args t
  if alpha = 0 then []
  else
    if extract_truthy args.extract_region_from_inj_coords then
      match get_structure_from_coordinates env.tree env.vol t.injection_coordinates false with
      | none => []
      | some (.struct s) =>
        match args.extract_region_from_inj_coords with
        | .fromList allow =>
          if is_any_item_in_list [env.parent_acronym s.acronym] allow then
            tract_geoms env args t color alpha
          else []
        | _ => tract_geoms env args t color alpha
      | some (.acr _) => []
    else tract_geoms env args t color alpha

/-- `ABA.get_tractography` (source lines 400-524).  The argument-shape
check at line 428 indexes `tractography[0]`, so an empty list raises
`IndexError`; a single dict is wrapped into a singleton list before the
code modelled here runs.  Verbose printing is a side effect with no
influence on the returned list and is not modelled. -/
def get_tractography (env : TractoEnv) (args : TractoArgs) (ts : List Tract)
    (color : TractColorArg) : Except PyErr (List Geom) :=
  if ts.isEmpty then .error .indexError
  else
    match tract_colors env args ts color with
    | .error e => .error e
    | .ok COLORS =>
      .ok ((ts.zip COLORS).flatMap fun p => tract_record_actors env args p.1 p.2)

/-- C7: a tractography record whose resolved opacity is zero contributes
no geometry at all - neither its injection-site sphere nor its path tube -
and `get_tractography` returns exactly the concatenation of the per-record
contributions, so such a record is absent from the output list. -/
theorem zero_alpha_tracts_dropped :
    (∀ (env : TractoEnv) (args : TractoArgs) (t : Tract) (c : Color),
      resolved_alpha env args t = 0 → tract_record_actors env args t c = []) ∧
    (∀ (env : TractoEnv) (args : TractoArgs) (ts : List Tract) (color : TractColorArg)
      (COLORS : List Color), tract_colors env args ts color = .ok COLORS → ts ≠ [] →
      get_tractography env args ts color
        = .ok ((ts.zip COLORS).flatMap fun p => tract_record_actors env args p.1 p.2)) := by
  constructor
  · intro env args t c h
    unfold tract_record_actors
    simp [h]
  · intro env args ts color COLORS hc hne
    unfold get_tractography
    rw [if_neg (by simpa using hne), hc]

/-- Concrete environment for the C7 witness. -/
def tractoEnvW : TractoEnv :=
  ⟨.named "white", 1, 1, 8, 1, fun _ => true, fun _ => .named "red", fun s => s,
    demoTree, demoVol⟩

/-- Concrete arguments for the C7 witness: `target_region` mode with
`others_alpha = 0` and no VIP regions, so every record resolves to zero
opacity. -/
def tractoArgsW : TractoArgs :=
  ⟨.target_region, 0, [], none, .named "white", false, .noExtract, true⟩

/-- Concrete record for the C7 witness. -/
def tractW : Tract := ⟨"VISp", [], ⟨0, 0, 0⟩, 1, []⟩

/-- Witness for C7: the concrete zero-opacity record contributes nothing
and the call returns an empty geometry list. -/
theorem zero_alpha_tracts_dropped_witness :
    tract_record_actors tractoEnvW tractoArgsW tractW (Color.named "white") = [] ∧
    get_tractography tractoEnvW tractoArgsW [tractW] .noneC = .ok [] := by
  refine ⟨zero_alpha_tracts_dropped.1 tractoEnvW tractoArgsW tractW _ rfl, ?_⟩
  exact zero_alpha_tracts_dropped.2 tractoEnvW tractoArgsW [tractW] .noneC
    [Color.named "white"] rfl (by simp)

/-! ### Brain-region rendering (`ABA.get_brain_regions`)

The `colors` argument is dispatched at runtime on `isinstance(colors[0],
(list, tuple))`: a list whose first element is a list/tuple (an RGB
triple, constructor `Color.rgb`) is a per-region color list; any other
list is treated as ONE color value (the whole list) and broadcast; a
non-list value is a single color broadcast to every region.  A resolved
per-region color is therefore either a plain color or a whole Python
list used as a color (`ColorVal`). -/

/-- Whether a color value is a Python list/tuple (an RGB triple) rather
than a string. -/
def isSeqColor : Color → Bool
  | .named _ => false
  | .rgb _ _ _ => true

/-- A value passed to the mesh loader as a color: a plain color, or a
whole Python list used as one color value (the odd broadcast case). -/
inductive ColorVal where
  | plain (c : Color)
  | listVal (cs : List Color)
deriving DecidableEq

/-- The `colors` argument of `get_brain_regions`: a single (non-list)
color value, or a Python list of color values. -/
inductive RegionColorsArg where
  | single (c : Color)
  | listArg (cs : List Color)
deriving DecidableEq

/-- `ABA.ignore_regions` (class attribute). -/
def ignore_regions : List String := ["retina", "brain", "fiber tracts", "grey"]

/-- Module defaults and external collaborators used by
`get_brain_regions`. -/
structure RegionsEnv where
  region_acronyms : Option (List String)
  DEFAULT_VIP_REGIONS : List String
  DEFAULT_VIP_COLOR : ColorVal
  DEFAULT_STRUCTURE_ALPHA : ℚ
  DEFAULT_STRUCTURE_COLOR : ColorVal
  check_colors : ColorVal → Bool
  region_color : String → ℚ × ℚ × ℚ
  mesh_ok : String → Bool
  load_mesh : String → ColorVal → ℚ → Option Geom
  unilateral : String → String → ColorVal → ℚ → Option Geom
  edit_actor : Geom → Geom

def regionsListLenMsg : String :=
  "when passing colors as a list, the number of colors must match the number of brain regions"

def regionsInvalidColorMsg : String :=
  "Invalide colors in input"

def regionsHemisphereMsg : String :=
  "Invalid hemisphere argument"

/-- The colors check of `get_brain_regions` (source lines 148-156),
producing the resolved per-region color list (or `none` when no colors
were passed).  `colors[0]` on an empty list raises `IndexError`; for a
per-region list (first element a list/tuple) the length check runs before
the per-element `check_colors` validation; any other list is validated and
broadcast whole as a single color value. -/
def check_region_colors (env : RegionsEnv) (N : Nat) :
    Option RegionColorsArg → Except PyErr (Option (List ColorVal))
  | none => .ok none
  | some (.single c) =>
    if env.check_colors (.plain c) then .ok (some (List.replicate N (.plain c)))
    else .error (.valueError regionsInvalidColorMsg)
  | some (.listArg []) => .error .indexError
  | some (.listArg (c0 :: rest)) =>
    if isSeqColor c0 then
      if (c0 :: rest).length ≠ N then .error (.valueError regionsListLenMsg)
      else if (c0 :: rest).all (fun c => env.check_colors (.plain c)) then
        .ok (some ((c0 :: rest).map ColorVal.plain))
      else .error (.valueError regionsInvalidColorMsg)
    else
      if env.check_colors (.listVal (c0 :: rest)) then
        .ok (some (List.replicate N (.listVal (c0 :: rest))))
      else .error (.valueError regionsInvalidColorMsg)

/-- The loop body of `get_brain_regions` for one region at index `i`
(source lines 160-209): skip ignored, unknown, or mesh-less regions;
resolve the color (original allen color scaled by 255, VIP color, the
per-region list entry, or the default); VIP regions get opacity 1; an
invalid hemisphere string raises, otherwise the mesh is loaded (whole or
unilateral, both external) and edited, with a failed load skipped. -/
def region_actor_step (env : RegionsEnv) (vips : List String) (vipc : ColorVal)
    (alphaDefault : ℚ) (use_original_color : Bool) (colorsR : Option (List ColorVal))
    (hemisphere : Option String) (acrs : List String) (i : Nat) (region : String) :
    Except PyErr (Option (String × Geom)) :=
  if ignore_regions.contains region then .ok none
  else if ¬ acrs.contains region then .ok none
  else if ¬ env.mesh_ok region then .ok none
  else
    let color : ColorVal :=
      if use_original_color then
        match env.region_color region with
        | (r, g, b) => .plain (.rgb (r / 255) (g / 255) (b / 255))
      else if vips.contains region then vipc
      else
        match colorsR with
        | none => env.DEFAULT_STRUCTURE_COLOR
        | some cs => cs.getD i env.DEFAULT_STRUCTURE_COLOR
    let alphaR : ℚ := if vips.contains region then 1 else alphaDefault
    match hemisphere with
    | some h =>
      if h.toLower = "left" ∨ h.toLower = "right" then
        match env.unilateral region h color alphaR with
        | some obj => .ok (some (region, env.edit_actor obj))
        | none => .ok none
      else .error (.valueError regionsHemisphereMsg)
    | none =>
      match env.load_mesh region color alphaR with
      | some obj => .ok (some (region, env.edit_actor obj))
      | none => .ok none

/-- `for i, region in enumerate(brain_regions)` accumulating the surviving
actors in order (the source stores them in a dict keyed by region). -/
def regions_loop (env : RegionsEnv) (vips : List String) (vipc : ColorVal)
    (alphaDefault : ℚ) (use_original_color : Bool) (colorsR : Option (List ColorVal))
    (hemisphere : Option String) (acrs : List String) :
    Nat → List String → Except PyErr (List (String × Geom))
  | _, [] => .ok []
  | i, r :: rs =>
    match region_actor_step env vips vipc alphaDefault use_original_color colorsR
        hemisphere acrs i r with
    | .error e => .error e
    | .ok none =>
      regions_loop env vips vipc alphaDefault use_original_color colorsR hemisphere acrs
        (i + 1) rs
    | .ok (some pr) =>
      match regions_loop env vips vipc alphaDefault use_original_color colorsR hemisphere
          acrs (i + 1) rs with
      | .error e => .error e
      | .ok prs => .ok (pr :: prs)

/-- `ABA.get_brain_regions` (source lines 108-211): `None` when the atlas
has no region data (outer `Option`), otherwise defaults are filled in, the
colors argument is checked once before the loop, and the loop renders each
region.  A non-list `brain_regions` argument is wrapped into a singleton
list by the source before the code modelled here runs. -/
def get_brain_regions (env : RegionsEnv) (brain_regions : List String)
    (VIP_regions : Option (List String)) (VIP_color : Option ColorVal)
    (colors : Option RegionColorsArg) (use_original_color : Bool)
    (alpha : Option ℚ) (hemisphere : Option String) :
    Except PyErr (Option (List (String × Geom))) :=
  match env.region_acronyms with
  | none => .ok none
  | some acrs =>
    match check_region_colors env brain_regions.length colors with
    | .error e => .error e
    | .ok colorsR =>
      match regions_loop env (VIP_regions.getD env.DEFAULT_VIP_REGIONS)
          (VIP_color.getD env.DEFAULT_VIP_COLOR)
          (alpha.getD env.DEFAULT_STRUCTURE_ALPHA) use_original_color colorsR
          hemisphere acrs 0 brain_regions with
      | .error e => .error e
      | .ok actors => .ok (some actors)

/-- C5: for every entity count at least one and every explicit per-entity
color list of a different length, the operation fails immediately with the
source's length-mismatch `ValueError`: `get_neurons` with a list of plain
colors, `get_neurons` with a list of per-part dicts, `get_tractography` in
`manual` mode with a color list, and `get_brain_regions` with a per-region
color list (a list whose first element is an RGB triple). -/
theorem color_list_length_mismatch_errors :
    (∀ (neurons : List NeuronArg) (cs : List Color) (da dd : Bool),
      1 ≤ neurons.length → cs.length ≠ neurons.length →
      get_neurons neurons (.colorList cs) da dd
        = .error (.valueError neuronsListLenMsg)) ∧
    (∀ (neurons : List NeuronArg) (ds : List PartsDict) (da dd : Bool),
      1 ≤ neurons.length → ds.length ≠ neurons.length →
      get_neurons neurons (.dictList ds) da dd
        = .error (.valueError neuronsListLenMsg)) ∧
    (∀ (env : TractoEnv) (args : TractoArgs) (ts : List Tract) (cs : List Color),
      args.color_by = .manual → 1 ≤ ts.length → cs.length ≠ ts.length →
      get_tractography env args ts (.listC cs)
        = .error (.valueError tractoListLenMsg)) ∧
    (∀ (env : RegionsEnv) (acrs : List String) (regions : List String) (c0 : Color)
      (rest : List Color) (VIPr : Option (List String)) (VIPc : Option ColorVal)
      (uoc : Bool) (alpha : Option ℚ) (hemi : Option String),
      env.region_acronyms = some acrs → 1 ≤ regions.length → isSeqColor c0 = true →
      (c0 :: rest).length ≠ regions.length →
      get_brain_regions env regions VIPr VIPc (some (.listArg (c0 :: rest))) uoc alpha hemi
        = .error (.valueError regionsListLenMsg)) := by
  refine ⟨?_, ?_, ?_, ?_⟩
  · intro neurons cs da dd h1 h2
    unfold get_neurons
    have hp : prepare_neuron_colors neurons.length (.colorList cs)
        = .error (.valueError neuronsListLenMsg) := by
      simp only [prepare_neuron_colors]
      rw [if_pos h2]
    rw [hp]
  · intro neurons ds da dd h1 h2
    unfold get_neurons
    have hp : prepare_neuron_colors neurons.length (.dictList ds)
        = .error (.valueError neuronsListLenMsg) := by
      simp only [prepare_neuron_colors]
      rw [if_pos h2]
    rw [hp]
  · intro env args ts cs hmode h1 h2
    cases ts with
    | nil => simp at h1
    | cons t ts2 =>
      unfold get_tractography
      rw [if_neg (by simp)]
      have hc : tract_colors env args (t :: ts2) (.listC cs)
          = .error (.valueError tractoListLenMsg) := by
        unfold tract_colors
        simp only [hmode]
        rw [if_pos h2]
      rw [hc]
  · intro env acrs regions c0 rest VIPr VIPc uoc alpha hemi hacr h1 hseq h2
    unfold get_brain_regions
    simp only [hacr]
    have hc : check_region_colors env regions.length (some (.listArg (c0 :: rest)))
        = .error (.valueError regionsListLenMsg) := by
      simp only [check_region_colors]
      rw [if_pos hseq, if_pos h2]
    rw [hc]

/-- Concrete `manual`-mode arguments for the C5 witness. -/
def tractoArgsManualW : TractoArgs :=
  ⟨.manual, 1, [], none, .named "white", false, .noExtract, true⟩

/-- Concrete environment for the C5 witness. -/
def regionsEnvW : RegionsEnv :=
  ⟨some ["MOs", "VISp"], [], .plain (.named "magenta"), 1, .plain (.named "white"),
    fun _ => true, fun _ => (1, 1, 1), fun _ => true, fun _ _ _ => some (.mesh 5),
    fun _ _ _ _ => some (.mesh 6), fun g => g⟩

/-- Witness for C5: one neuron with two colors, one neuron with two
per-part dicts, one tractography record with two colors, one region with
two RGB triples - each call fails with the length-mismatch error. -/
theorem color_list_length_mismatch_errors_witness :
    get_neurons [.actor (.mesh 0)] (.colorList [.named "red", .named "blue"]) true true
      = .error (.valueError neuronsListLenMsg) ∧
    get_neurons [.actor (.mesh 0)]
      (.dictList [⟨some (.named "red"), none, none⟩, ⟨some (.named "blue"), none, none⟩])
      true true = .error (.valueError neuronsListLenMsg) ∧
    get_tractography tractoEnvW tractoArgsManualW [tractW]
      (.listC [.named "red", .named "blue"]) = .error (.valueError tractoListLenMsg) ∧
    get_brain_regions regionsEnvW ["MOs"] none none
      (some (.listArg [.rgb 1 0 0, .rgb 0 1 0])) true none none
      = .error (.valueError regionsListLenMsg) :=
  ⟨color_list_length_mismatch_errors.1 [.actor (.mesh 0)] [.named "red", .named "blue"]
      true true (by decide) (by decide),
   color_list_length_mismatch_errors.2.1 [.actor (.mesh 0)]
      [⟨some (.named "red"), none, none⟩, ⟨some (.named "blue"), none, none⟩]
      true true (by decide) (by decide),
   color_list_length_mismatch_errors.2.2.1 tractoEnvW tractoArgsManualW [tractW]
      [.named "red", .named "blue"] rfl (by decide) (by decide),
   color_list_length_mismatch_errors.2.2.2 regionsEnvW ["MOs", "VISp"] ["MOs"]
      (.rgb 1 0 0) [.rgb 0 1 0] none none true none none rfl (by decide) rfl (by decide)⟩
